import Mathlib

/-!
Shallow embedding of the `hsr-settings` settings engine (src/src/main.rs):
the `GraphicsSettings` record, the serde-JSON persistence adapter
(`read_settings` / `write_settings`), the field registry (`setting_defs`)
and the cycling engine (`App::cycle`).

Modelling conventions:
* Rust `i64` is modelled as `Int` (no value in this program approaches the
  64-bit boundary, so wrap-around never matters).
* Rust `f64` is modelled by the exact-decimal type `Dec` below (an
  integer numerator over a power of ten).  Every float this program
  manipulates is a small decimal (the render-scale domain 0.6 .. 2.0 in
  steps of 0.2, values parsed from decimal JSON text), far from any
  rounding boundary of the 0.001 tolerance the code uses, so the
  observable behaviour coincides with the binary64 execution.
* The Windows registry is modelled as an explicit state: for reads, the
  three cases the code distinguishes (path missing / value missing /
  value bytes present); for writes, the two fallible operations
  (`create_subkey`, `set_raw_value`) are given by optional error outcomes.
* `serde_json` is modelled by a JSON value type, a fuelled recursive
  descent parser for text, and a field-table deserializer: a derived
  serde struct deserializer succeeds exactly when every required field
  occurs exactly once with a convertible value (unknown names are
  ignored, a duplicate known field is an error), which `getField` below
  captures.
-/

namespace HsrSettings

/-- Exact decimal numbers: `num / 10 ^ exp`.  This is the model of the
`f64` values the program manipulates: all of them are decimal fractions
(domain entries `v / 10.0` and numbers parsed from decimal JSON text)
whose binary64 rounding error is far below every comparison threshold in
the program, so exact decimal arithmetic gives the same observable
behaviour. -/
structure Dec where
  num : Int
  exp : Nat
deriving DecidableEq, Repr

/-- Exact subtraction on a common power-of-ten denominator. -/
def Dec.sub (a b : Dec) : Dec :=
  ⟨a.num * (10 : Int) ^ b.exp - b.num * (10 : Int) ^ a.exp, a.exp + b.exp⟩

/-- `f64::abs`. -/
def Dec.abs (a : Dec) : Dec :=
  ⟨if a.num < 0 then -a.num else a.num, a.exp⟩

/-- Exact value comparison by cross multiplication. -/
def Dec.lt (a b : Dec) : Bool :=
  a.num * (10 : Int) ^ b.exp < b.num * (10 : Int) ^ a.exp

/-- JSON values as serde_json sees them; integral numbers are kept apart
from floating ones, mirroring serde_json's i64/f64 split. -/
inductive Json where
  | null
  | bool (b : Bool)
  | int (n : Int)
  | float (q : Dec)
  | str (s : String)
  | arr (elems : List Json)
  | obj (fields : List (String × Json))

/-- JSON whitespace. -/
def isWs (c : Char) : Bool :=
  c = ' ' || c = '\t' || c = '\n' || c = '\r'

def skipWs : List Char → List Char
  | c :: rest => if isWs c then skipWs rest else c :: rest
  | [] => []

/-- Take a maximal run of decimal digits, returning their values. -/
def takeDigits : List Char → List Nat × List Char
  | [] => ([], [])
  | c :: rest =>
    if c.isDigit then
      let p := takeDigits rest
      ((c.toNat - 48) :: p.1, p.2)
    else ([], c :: rest)

def natOfDigits (ds : List Nat) : Nat :=
  ds.foldl (fun a d => a * 10 + d) 0

/-- Parse an optional exponent tail (after the `e`/`E`); JSON numbers with
an exponent deserialize as floats. -/
def parseExpTail (base : Dec) (cs : List Char) : Option (Json × List Char) :=
  let p : Bool × List Char :=
    match cs with
    | '+' :: r => (false, r)
    | '-' :: r => (true, r)
    | _ => (false, cs)
  let q := takeDigits p.2
  if q.1 = [] then none
  else
    let e := natOfDigits q.1
    let v : Dec :=
      if p.1 then ⟨base.num, base.exp + e⟩
      else ⟨base.num * (10 : Int) ^ e, base.exp⟩
    some (.float v, q.2)

/-- Parse a JSON number per the JSON grammar; without fraction and
exponent it is an integer (serde_json: i64), otherwise a float. -/
def parseNumber (cs : List Char) : Option (Json × List Char) :=
  let sp : Bool × List Char :=
    match cs with
    | '-' :: r => (true, r)
    | _ => (false, cs)
  let neg := sp.1
  match sp.2 with
  | [] => none
  | c :: _ =>
    if c.isDigit then
      let ip := takeDigits sp.2
      if ip.1.length ≥ 2 ∧ ip.1.headD 1 = 0 then none
      else
        let intNat := natOfDigits ip.1
        match ip.2 with
        | '.' :: r =>
          let fp := takeDigits r
          if fp.1 = [] then none
          else
            let m : Nat := intNat * 10 ^ fp.1.length + natOfDigits fp.1
            let baseS : Dec := ⟨if neg then -(m : Int) else (m : Int), fp.1.length⟩
            match fp.2 with
            | 'e' :: r2 => parseExpTail baseS r2
            | 'E' :: r2 => parseExpTail baseS r2
            | other => some (.float baseS, other)
        | 'e' :: r =>
          parseExpTail ⟨if neg then -(intNat : Int) else (intNat : Int), 0⟩ r
        | 'E' :: r =>
          parseExpTail ⟨if neg then -(intNat : Int) else (intNat : Int), 0⟩ r
        | other => some (.int (if neg then -(intNat : Int) else (intNat : Int)), other)
    else none

def hexVal (c : Char) : Option Nat :=
  if c.isDigit then some (c.toNat - 48)
  else if 'a' ≤ c ∧ c ≤ 'f' then some (c.toNat - 87)
  else if 'A' ≤ c ∧ c ≤ 'F' then some (c.toNat - 70)
  else none

def hex4 (a b c d : Char) : Option Nat := do
  let x1 ← hexVal a
  let x2 ← hexVal b
  let x3 ← hexVal c
  let x4 ← hexVal d
  pure (((x1 * 16 + x2) * 16 + x3) * 16 + x4)

def consFst (c : Char) (p : List Char × List Char) : List Char × List Char :=
  (c :: p.1, p.2)

/-- Parse the characters of a JSON string after the opening quote,
returning the content and the rest after the closing quote.  Escapes and
surrogate pairs follow serde_json (lone surrogates and raw control
characters are errors). -/
def parseStringChars : Nat → List Char → Option (List Char × List Char)
  | 0, _ => none
  | _ + 1, [] => none
  | fuel + 1, c0 :: rest0 =>
    if c0 = '"' then some ([], rest0)
    else if c0 = '\\' then
      match rest0 with
      | '"' :: r => consFst '"' <$> parseStringChars fuel r
      | '\\' :: r => consFst '\\' <$> parseStringChars fuel r
      | '/' :: r => consFst '/' <$> parseStringChars fuel r
      | 'b' :: r => consFst (Char.ofNat 8) <$> parseStringChars fuel r
      | 'f' :: r => consFst (Char.ofNat 12) <$> parseStringChars fuel r
      | 'n' :: r => consFst '\n' <$> parseStringChars fuel r
      | 'r' :: r => consFst '\r' <$> parseStringChars fuel r
      | 't' :: r => consFst '\t' <$> parseStringChars fuel r
      | 'u' :: h1 :: h2 :: h3 :: h4 :: r => do
        let n ← hex4 h1 h2 h3 h4
        if 0xD800 ≤ n ∧ n ≤ 0xDBFF then
          match r with
          | '\\' :: 'u' :: g1 :: g2 :: g3 :: g4 :: r2 => do
            let m ← hex4 g1 g2 g3 g4
            if 0xDC00 ≤ m ∧ m ≤ 0xDFFF then
              let cp := 0x10000 + (n - 0xD800) * 0x400 + (m - 0xDC00)
              consFst (Char.ofNat cp) <$> parseStringChars fuel r2
            else none
          | _ => none
        else if 0xDC00 ≤ n ∧ n ≤ 0xDFFF then none
        else consFst (Char.ofNat n) <$> parseStringChars fuel r
      | _ => none
    else if c0.toNat < 0x20 then none
    else consFst c0 <$> parseStringChars fuel rest0

mutual

/-- Fuelled recursive-descent JSON parser (model of serde_json's text
parser).  The fuel only bounds recursion; the callers supply enough for
any input of the given length. -/
def parseVal : Nat → List Char → Option (Json × List Char)
  | 0, _ => none
  | fuel + 1, cs0 =>
    match skipWs cs0 with
    | 't' :: 'r' :: 'u' :: 'e' :: r => some (.bool true, r)
    | 'f' :: 'a' :: 'l' :: 's' :: 'e' :: r => some (.bool false, r)
    | 'n' :: 'u' :: 'l' :: 'l' :: r => some (.null, r)
    | '"' :: r =>
      (fun p => (Json.str (String.mk p.1), p.2)) <$> parseStringChars (r.length + 1) r
    | '[' :: r =>
      (match skipWs r with
       | ']' :: r2 => some (.arr [], r2)
       | other => (fun p => (Json.arr p.1, p.2)) <$> parseArrItems fuel other)
    | '{' :: r =>
      (match skipWs r with
       | '}' :: r2 => some (.obj [], r2)
       | other => (fun p => (Json.obj p.1, p.2)) <$> parseObjItems fuel other)
    | other => parseNumber other

def parseArrItems : Nat → List Char → Option (List Json × List Char)
  | 0, _ => none
  | fuel + 1, cs0 => do
    let (v, r) ← parseVal fuel cs0
    match skipWs r with
    | ',' :: r2 => do
      let (vs, r3) ← parseArrItems fuel r2
      pure (v :: vs, r3)
    | ']' :: r2 => pure ([v], r2)
    | _ => none

def parseObjItems : Nat → List Char → Option (List (String × Json) × List Char)
  | 0, _ => none
  | fuel + 1, cs0 =>
    match skipWs cs0 with
    | '"' :: r => do
      let (key, r2) ← parseStringChars (r.length + 1) r
      match skipWs r2 with
      | ':' :: r3 => do
        let (v, r4) ← parseVal fuel r3
        match skipWs r4 with
        | ',' :: r5 => do
          let (fs, r6) ← parseObjItems fuel r5
          pure ((String.mk key, v) :: fs, r6)
        | '}' :: r5 => pure ([(String.mk key, v)], r5)
        | _ => none
      | _ => none
    | _ => none

end

/-- `serde_json::from_str` at the JSON-value level: one value, then only
whitespace up to the end of input. -/
def jsonFromStr (cs : List Char) : Option Json := do
  let (v, rest) ← parseVal (cs.length + 2) cs
  match skipWs rest with
  | [] => some v
  | _ => none

/-- The `GraphicsSettings` struct (main.rs lines 134-159); `i64` as `Int`,
`f64` as `Dec`, fields in Rust declaration order. -/
structure GraphicsSettings where
  fps : Int
  enable_vsync : Bool
  render_scale : Dec
  resolution_quality : Int
  shadow_quality : Int
  light_quality : Int
  character_quality : Int
  env_detail_quality : Int
  reflection_quality : Int
  sfx_quality : Int
  bloom_quality : Int
  aa_mode : Int
  enable_metal_fxsu : Bool
  enable_half_res_transparent : Bool
  enable_self_shadow : Int
  dlss_quality : Int
  particle_trail_smoothness : Int
deriving DecidableEq, Repr

/-- `impl Default for GraphicsSettings` (main.rs lines 161-183). -/
def GraphicsSettings.default : GraphicsSettings where
  fps := 60
  enable_vsync := true
  render_scale := ⟨1, 0⟩
  resolution_quality := 3
  shadow_quality := 3
  light_quality := 3
  character_quality := 3
  env_detail_quality := 3
  reflection_quality := 3
  sfx_quality := 3
  bloom_quality := 3
  aa_mode := 1
  enable_metal_fxsu := false
  enable_half_res_transparent := false
  enable_self_shadow := 1
  dlss_quality := 0
  particle_trail_smoothness := 3

/-- Split a name at `_` separators. -/
def splitSegs : List Char → List (List Char)
  | [] => [[]]
  | c :: rest =>
    if c = '_' then [] :: splitSegs rest
    else
      match splitSegs rest with
      | s :: ss => (c :: s) :: ss
      | [] => [[c]]

/-- Capitalize the first character of a word (ASCII), as serde's rename
rules do. -/
def capitalizeSeg : List Char → List Char
  | [] => []
  | c :: cs => c.toUpper :: cs

def concatSegs : List (List Char) → List Char
  | [] => []
  | s :: ss => s ++ concatSegs ss

/-- serde's `RenameRule::PascalCase` applied to a snake_case field name:
split at underscores, capitalize each segment, concatenate. -/
def pascalCase (s : String) : String :=
  String.mk (concatSegs ((splitSegs s.data).map capitalizeSeg))

/-!
External field names.  The struct carries
`#[serde(rename_all = "PascalCase")]`, so each field's external name is
its explicit `#[serde(rename = "...")]` when present and the PascalCase
conversion of the Rust field name otherwise.
-/

def fpsName : String := "FPS"
def enableVSyncName : String := "EnableVSync"
def renderScaleName : String := pascalCase "render_scale"
def resolutionQualityName : String := pascalCase "resolution_quality"
def shadowQualityName : String := pascalCase "shadow_quality"
def lightQualityName : String := pascalCase "light_quality"
def characterQualityName : String := pascalCase "character_quality"
def envDetailQualityName : String := pascalCase "env_detail_quality"
def reflectionQualityName : String := pascalCase "reflection_quality"
def sfxQualityName : String := "SFXQuality"
def bloomQualityName : String := pascalCase "bloom_quality"
def aaModeName : String := "AAMode"
def enableMetalFxsuName : String := "EnableMetalFXSU"
def enableHalfResTransparentName : String := pascalCase "enable_half_res_transparent"
def enableSelfShadowName : String := pascalCase "enable_self_shadow"
def dlssQualityName : String := pascalCase "dlss_quality"
def particleTrailSmoothnessName : String := pascalCase "particle_trail_smoothness"

/-- All external field names, in struct declaration order. -/
def gsFieldNames : List String :=
  [fpsName, enableVSyncName, renderScaleName, resolutionQualityName,
   shadowQualityName, lightQualityName, characterQualityName,
   envDetailQualityName, reflectionQualityName, sfxQualityName,
   bloomQualityName, aaModeName, enableMetalFxsuName,
   enableHalfResTransparentName, enableSelfShadowName, dlssQualityName,
   particleTrailSmoothnessName]

/-- serde deserialization of an `i64` field value: only an integral JSON
number is accepted. -/
def asI64 : Json → Option Int
  | .int n => some n
  | _ => none

/-- serde deserialization of an `f64` field value: any JSON number. -/
def asF64 : Json → Option Dec
  | .int n => some ⟨n, 0⟩
  | .float q => some q
  | _ => none

/-- serde deserialization of a `bool` field value. -/
def asBool : Json → Option Bool
  | .bool b => some b
  | _ => none

/-- The value of a required field in an object's field table: present
exactly once.  (The derived serde deserializer fills each field slot as
entries arrive, errors on a duplicate known field and at the end on a
missing one; an absent or duplicated name therefore fails.) -/
def getField (fields : List (String × Json)) (name : String) : Option Json :=
  match fields.filter (fun p => p.1 == name) with
  | [p] => some p.2
  | _ => none

/-- Fields 1-6 of the derived deserializer (`fps` .. `light_quality`);
the split into three stages is only to keep terms shallow, the derived
serde deserializer is a single unit. -/
def deserGS1 (fields : List (String × Json)) :
    Option (Int × Bool × Dec × Int × Int × Int) :=
  (getField fields fpsName >>= asI64).bind fun fps =>
  (getField fields enableVSyncName >>= asBool).bind fun enable_vsync =>
  (getField fields renderScaleName >>= asF64).bind fun render_scale =>
  (getField fields resolutionQualityName >>= asI64).bind fun resolution_quality =>
  (getField fields shadowQualityName >>= asI64).bind fun shadow_quality =>
  (getField fields lightQualityName >>= asI64).bind fun light_quality =>
  some (fps, enable_vsync, render_scale, resolution_quality, shadow_quality,
    light_quality)

/-- Fields 7-12 of the derived deserializer
(`character_quality` .. `aa_mode`). -/
def deserGS2 (fields : List (String × Json)) :
    Option (Int × Int × Int × Int × Int × Int) :=
  (getField fields characterQualityName >>= asI64).bind fun character_quality =>
  (getField fields envDetailQualityName >>= asI64).bind fun env_detail_quality =>
  (getField fields reflectionQualityName >>= asI64).bind fun reflection_quality =>
  (getField fields sfxQualityName >>= asI64).bind fun sfx_quality =>
  (getField fields bloomQualityName >>= asI64).bind fun bloom_quality =>
  (getField fields aaModeName >>= asI64).bind fun aa_mode =>
  some (character_quality, env_detail_quality, reflection_quality, sfx_quality,
    bloom_quality, aa_mode)

/-- Fields 13-17 of the derived deserializer
(`enable_metal_fxsu` .. `particle_trail_smoothness`). -/
def deserGS3 (fields : List (String × Json)) :
    Option (Bool × Bool × Int × Int × Int) :=
  (getField fields enableMetalFxsuName >>= asBool).bind fun enable_metal_fxsu =>
  (getField fields enableHalfResTransparentName >>= asBool).bind fun ehrt =>
  (getField fields enableSelfShadowName >>= asI64).bind fun enable_self_shadow =>
  (getField fields dlssQualityName >>= asI64).bind fun dlss_quality =>
  (getField fields particleTrailSmoothnessName >>= asI64).bind fun pts =>
  some (enable_metal_fxsu, ehrt, enable_self_shadow, dlss_quality, pts)

/-- The derived `Deserialize for GraphicsSettings`: every field required,
under its external name, with serde's value conversions; unknown names
are ignored (no `deny_unknown_fields`). -/
def deserializeGS (fields : List (String × Json)) : Option GraphicsSettings :=
  (deserGS1 fields).bind fun a =>
  (deserGS2 fields).bind fun b =>
  (deserGS3 fields).bind fun c =>
  some ⟨a.1, a.2.1, a.2.2.1, a.2.2.2.1, a.2.2.2.2.1, a.2.2.2.2.2,
    b.1, b.2.1, b.2.2.1, b.2.2.2.1, b.2.2.2.2.1, b.2.2.2.2.2,
    c.1, c.2.1, c.2.2.1, c.2.2.2.1, c.2.2.2.2⟩

/-- A struct deserializes from a JSON object only. -/
def gsFromJson : Json → Option GraphicsSettings
  | .obj fields => deserializeGS fields
  | _ => none

/-- `serde_json::from_str::<GraphicsSettings>` on decoded text. -/
def fromStrGS (cs : List Char) : Option GraphicsSettings :=
  (jsonFromStr cs).bind gsFromJson

/-!  UTF-8 encoding and lossy decoding (`String::from_utf8_lossy`). -/

/-- UTF-8 encoding of one character. -/
def charUtf8 (c : Char) : List Nat :=
  let n := c.toNat
  if n < 0x80 then [n]
  else if n < 0x800 then [0xC0 + n / 0x40, 0x80 + n % 0x40]
  else if n < 0x10000 then
    [0xE0 + n / 0x1000, 0x80 + (n / 0x40) % 0x40, 0x80 + n % 0x40]
  else
    [0xF0 + n / 0x40000, 0x80 + (n / 0x1000) % 0x40,
     0x80 + (n / 0x40) % 0x40, 0x80 + n % 0x40]

def bytesOfChars : List Char → List Nat
  | [] => []
  | c :: cs => charUtf8 c ++ bytesOfChars cs

/-- UTF-8 encoding of a string (`String::into_bytes`). -/
def strToUTF8 (s : String) : List Nat := bytesOfChars s.data

def utf8Cont (b : Nat) : Bool := 0x80 ≤ b && b ≤ 0xBF

def replChar : Char := Char.ofNat 0xFFFD

/-- Lossy UTF-8 decoding, one U+FFFD per maximal invalid subpart, as
`String::from_utf8_lossy` produces.  The fuel is the byte count; every
step consumes at least one byte. -/
def utf8LossyAux : Nat → List Nat → List Char
  | 0, _ => []
  | _ + 1, [] => []
  | fuel + 1, b :: rest =>
    if b < 0x80 then Char.ofNat b :: utf8LossyAux fuel rest
    else if b < 0xC2 then replChar :: utf8LossyAux fuel rest
    else if b ≤ 0xDF then
      match rest with
      | b1 :: r1 =>
        if utf8Cont b1 then
          Char.ofNat ((b - 0xC0) * 0x40 + (b1 - 0x80)) :: utf8LossyAux fuel r1
        else replChar :: utf8LossyAux fuel rest
      | [] => [replChar]
    else if b ≤ 0xEF then
      match rest with
      | b1 :: r1 =>
        let b1ok : Bool :=
          if b = 0xE0 then 0xA0 ≤ b1 && b1 ≤ 0xBF
          else if b = 0xED then 0x80 ≤ b1 && b1 ≤ 0x9F
          else utf8Cont b1
        if b1ok then
          match r1 with
          | b2 :: r2 =>
            if utf8Cont b2 then
              Char.ofNat ((b - 0xE0) * 0x1000 + (b1 - 0x80) * 0x40 + (b2 - 0x80))
                :: utf8LossyAux fuel r2
            else replChar :: utf8LossyAux fuel r1
          | [] => [replChar]
        else replChar :: utf8LossyAux fuel rest
      | [] => [replChar]
    else if b ≤ 0xF4 then
      match rest with
      | b1 :: r1 =>
        let b1ok : Bool :=
          if b = 0xF0 then 0x90 ≤ b1 && b1 ≤ 0xBF
          else if b = 0xF4 then 0x80 ≤ b1 && b1 ≤ 0x8F
          else utf8Cont b1
        if b1ok then
          match r1 with
          | b2 :: r2 =>
            if utf8Cont b2 then
              match r2 with
              | b3 :: r3 =>
                if utf8Cont b3 then
                  Char.ofNat ((b - 0xF0) * 0x40000 + (b1 - 0x80) * 0x1000 +
                      (b2 - 0x80) * 0x40 + (b3 - 0x80)) :: utf8LossyAux fuel r3
                else replChar :: utf8LossyAux fuel r2
              | [] => [replChar]
            else replChar :: utf8LossyAux fuel r1
          | [] => [replChar]
        else replChar :: utf8LossyAux fuel rest
      | [] => [replChar]
    else replChar :: utf8LossyAux fuel rest

def utf8Lossy (bs : List Nat) : List Char := utf8LossyAux bs.length bs

/-- `trim_end_matches('\0')`: drop every trailing NUL character. -/
def trimEndNuls (cs : List Char) : List Char :=
  (cs.reverse.dropWhile (fun c => c = Char.ofNat 0)).reverse

/-- The blob-to-text step of `read_settings`: lossy decode, then strip
trailing NULs. -/
def decodeBlob (bs : List Nat) : List Char := trimEndNuls (utf8Lossy bs)

/-- The three situations `read_settings` distinguishes on the registry:
store path missing, value name missing under it, or value bytes present. -/
inductive RegState where
  | noKey
  | noValue
  | value (bytes : List Nat)

/-- `read_settings` (main.rs lines 189-204).  The Rust function returns a
plain pair (no `Result`), so totality of this function is the model of
"never raises to its caller". -/
def readSettings : RegState → GraphicsSettings × Bool
  | .noKey => (GraphicsSettings.default, false)
  | .noValue => (GraphicsSettings.default, false)
  | .value bs =>
    match fromStrGS (decodeBlob bs) with
    | some s => (s, true)
    | none => (GraphicsSettings.default, false)

/-!  Serialization (`serde_json::to_string`) and `write_settings`. -/

def hexDigitStr (n : Nat) : String :=
  String.mk [Char.ofNat (if n < 10 then 48 + n else 87 + n)]

/-- serde_json's string escaping: quote, backslash and the control
characters below 0x20. -/
def escChar (c : Char) : String :=
  if c = '"' then "\\\""
  else if c = '\\' then "\\\\"
  else if c = '\n' then "\\n"
  else if c = '\r' then "\\r"
  else if c = '\t' then "\\t"
  else if c = Char.ofNat 8 then "\\b"
  else if c = Char.ofNat 12 then "\\f"
  else if c.toNat < 0x20 then
    "\\u00" ++ hexDigitStr (c.toNat / 16) ++ hexDigitStr (c.toNat % 16)
  else String.mk [c]

def escapeJson (s : String) : String :=
  "\"" ++ String.join (s.data.map escChar) ++ "\""

def padZeros (s : String) (k : Nat) : String :=
  String.mk (List.replicate (k - s.length) '0') ++ s

/-- Decimal rendering of a float (model of the shortest-decimal output
serde_json writes).  Every float value this program can hold is a small
decimal fraction (parsed from decimal text or drawn from the render-scale
domain), for which the shortest binary64 decimal is this exact decimal;
integral values render with a trailing `.0` as serde_json does. -/
def decReduceAux (n : Int) : Nat → Dec
  | 0 => ⟨n, 0⟩
  | e + 1 => if n % 10 = 0 then decReduceAux (n / 10) e else ⟨n, e + 1⟩

/-- Shortest-decimal rendering of a `Dec` (drop trailing fractional
zeros; integral values keep a `.0`), which is exactly what serde_json's
shortest-decimal float output produces for the decimal values this
program holds. -/
def fmtFloat (d : Dec) : String :=
  let r := decReduceAux d.num d.exp
  if r.exp = 0 then toString r.num ++ ".0"
  else
    let sign := if r.num < 0 then "-" else ""
    let a := r.num.natAbs
    sign ++ toString (a / 10 ^ r.exp) ++ "." ++ padZeros (toString (a % 10 ^ r.exp)) r.exp

/-- Compact JSON rendering, as `serde_json::to_string` emits it. -/
def renderJson : Json → String
  | .null => "null"
  | .bool true => "true"
  | .bool false => "false"
  | .int n => toString n
  | .float q => fmtFloat q
  | .str s => escapeJson s
  | .arr xs =>
    "[" ++ String.intercalate "," (xs.attach.map (fun x => renderJson x.1)) ++ "]"
  | .obj fs =>
    "\x7b" ++
      String.intercalate ","
        (fs.attach.map (fun p => escapeJson p.1.1 ++ ":" ++ renderJson p.1.2)) ++
      "\x7d"
decreasing_by
  · have h := List.sizeOf_lt_of_mem x.2
    simp only [Json.arr.sizeOf_spec]
    omega
  · have h := List.sizeOf_lt_of_mem p.2
    obtain ⟨⟨nm, v⟩, hm⟩ := p
    simp only [Prod.mk.sizeOf_spec] at h
    simp only [Json.obj.sizeOf_spec]
    omega

/-- The serialized field table of the derived `Serialize`: fields in
declaration order under their external names. -/
def serializeFields (s : GraphicsSettings) : List (String × Json) :=
  [(fpsName, .int s.fps),
   (enableVSyncName, .bool s.enable_vsync),
   (renderScaleName, .float s.render_scale),
   (resolutionQualityName, .int s.resolution_quality),
   (shadowQualityName, .int s.shadow_quality),
   (lightQualityName, .int s.light_quality),
   (characterQualityName, .int s.character_quality),
   (envDetailQualityName, .int s.env_detail_quality),
   (reflectionQualityName, .int s.reflection_quality),
   (sfxQualityName, .int s.sfx_quality),
   (bloomQualityName, .int s.bloom_quality),
   (aaModeName, .int s.aa_mode),
   (enableMetalFxsuName, .bool s.enable_metal_fxsu),
   (enableHalfResTransparentName, .bool s.enable_half_res_transparent),
   (enableSelfShadowName, .int s.enable_self_shadow),
   (dlssQualityName, .int s.dlss_quality),
   (particleTrailSmoothnessName, .int s.particle_trail_smoothness)]

/-- `serde_json::to_string(settings)`.  (In the model this never fails:
the only serde_json serialization failure mode for this struct would be a
non-finite float, which the rational model excludes.) -/
def serializeGS (s : GraphicsSettings) : String :=
  renderJson (.obj (serializeFields s))

/-- An underlying OS error (`io::Error`), kept abstract as its message. -/
def RegError := String

/-- `write_settings` (main.rs lines 206-219), with the fallible registry
operations given by their outcomes: `createErr` is the outcome of
`create_subkey`, `setErr` of `set_raw_value`.  On success the result
carries the bytes stored in the `REG_BINARY` value: the serialized text
with the pushed `'\0'`, as UTF-8 bytes. -/
def writeSettings (createErr setErr : Option RegError) (s : GraphicsSettings) :
    Except RegError (List Nat) :=
  match createErr with
  | some e => .error e
  | none =>
    let json := serializeGS s ++ "\x00"
    match setErr with
    | some e => .error e
    | none => .ok (strToUTF8 json)

/-!  Field identifiers, the registry and the cycling engine. -/

/-- The `Field` enum (main.rs lines 225-242). -/
inductive Field where
  | fps
  | vSync
  | renderScale
  | resolutionQuality
  | shadowQuality
  | lightQuality
  | characterQuality
  | envDetailQuality
  | reflectionQuality
  | sfxQuality
  | bloomQuality
  | aaMode
  | selfShadow
  | dlssQuality
  | particleTrail
deriving DecidableEq, Repr

/-- The `SettingKind` enum: a discrete integer domain, a discrete float
domain, or a boolean toggle; options are (label, value) pairs. -/
inductive SettingKind where
  | selectI64 (opts : List (String × Int))
  | selectF64 (opts : List (String × Dec))
  | toggle
deriving DecidableEq, Repr

structure SettingDef where
  field : Field
  kind : SettingKind
deriving DecidableEq, Repr

/-- The 1..=5 quality option list built in `setting_defs` (labels via
`i.to_string()`). -/
def qualityOpts : List (String × Int) :=
  (List.range 5).map (fun i => (toString (i + 1), ((i : Int) + 1)))

/-- The render-scale option list: `(6..=20).step_by(2)` mapped to
`v as f64 / 10.0`, labels via `format!("{f:.1}")` (which prints these
one-decimal values exactly as `fmtFloat` does). -/
def renderScaleOpts : List (String × Dec) :=
  (List.range 8).map (fun k =>
    (fmtFloat ⟨((6 + 2 * k : Nat) : Int), 1⟩, (⟨((6 + 2 * k : Nat) : Int), 1⟩ : Dec)))

/-- The DLSS option list: `Off` then levels 1..=5. -/
def dlssOpts : List (String × Int) :=
  ("Off", 0) :: (List.range 5).map (fun i => (toString (i + 1), ((i : Int) + 1)))

/-- `setting_defs()` (main.rs lines 283-307), in order. -/
def settingDefs : List SettingDef :=
  [⟨.fps, .selectI64 [("30", 30), ("60", 60), ("120", 120)]⟩,
   ⟨.vSync, .toggle⟩,
   ⟨.renderScale, .selectF64 renderScaleOpts⟩,
   ⟨.resolutionQuality, .selectI64 qualityOpts⟩,
   ⟨.shadowQuality, .selectI64 qualityOpts⟩,
   ⟨.lightQuality, .selectI64 qualityOpts⟩,
   ⟨.characterQuality, .selectI64 qualityOpts⟩,
   ⟨.envDetailQuality, .selectI64 qualityOpts⟩,
   ⟨.reflectionQuality, .selectI64 qualityOpts⟩,
   ⟨.sfxQuality, .selectI64 qualityOpts⟩,
   ⟨.bloomQuality, .selectI64 qualityOpts⟩,
   ⟨.aaMode, .selectI64 [("Off", 0), ("On", 1)]⟩,
   ⟨.selfShadow, .selectI64 [("Off", 0), ("On", 1)]⟩,
   ⟨.dlssQuality, .selectI64 dlssOpts⟩,
   ⟨.particleTrail, .selectI64 qualityOpts⟩]

/-- `get_i64` (main.rs lines 317-334); the wildcard arm returns 0. -/
def getI64 (s : GraphicsSettings) : Field → Int
  | .fps => s.fps
  | .resolutionQuality => s.resolution_quality
  | .shadowQuality => s.shadow_quality
  | .lightQuality => s.light_quality
  | .characterQuality => s.character_quality
  | .envDetailQuality => s.env_detail_quality
  | .reflectionQuality => s.reflection_quality
  | .sfxQuality => s.sfx_quality
  | .bloomQuality => s.bloom_quality
  | .aaMode => s.aa_mode
  | .selfShadow => s.enable_self_shadow
  | .dlssQuality => s.dlss_quality
  | .particleTrail => s.particle_trail_smoothness
  | _ => 0

/-- `set_i64` (main.rs lines 336-353); the wildcard arm is a no-op. -/
def setI64 (s : GraphicsSettings) : Field → Int → GraphicsSettings
  | .fps, v => { s with fps := v }
  | .resolutionQuality, v => { s with resolution_quality := v }
  | .shadowQuality, v => { s with shadow_quality := v }
  | .lightQuality, v => { s with light_quality := v }
  | .characterQuality, v => { s with character_quality := v }
  | .envDetailQuality, v => { s with env_detail_quality := v }
  | .reflectionQuality, v => { s with reflection_quality := v }
  | .sfxQuality, v => { s with sfx_quality := v }
  | .bloomQuality, v => { s with bloom_quality := v }
  | .aaMode, v => { s with aa_mode := v }
  | .selfShadow, v => { s with enable_self_shadow := v }
  | .dlssQuality, v => { s with dlss_quality := v }
  | .particleTrail, v => { s with particle_trail_smoothness := v }
  | _, _ => s

/-- `get_f64` (main.rs lines 355-360). -/
def getF64 (s : GraphicsSettings) : Field → Dec
  | .renderScale => s.render_scale
  | _ => ⟨0, 0⟩

/-- `set_f64` (main.rs lines 362-367). -/
def setF64 (s : GraphicsSettings) : Field → Dec → GraphicsSettings
  | .renderScale, v => { s with render_scale := v }
  | _, _ => s

/-- `get_bool` (main.rs lines 369-374). -/
def getBool (s : GraphicsSettings) : Field → Bool
  | .vSync => s.enable_vsync
  | _ => false

/-- `set_bool` (main.rs lines 376-381). -/
def setBool (s : GraphicsSettings) : Field → Bool → GraphicsSettings
  | .vSync, v => { s with enable_vsync := v }
  | _, _ => s

/-- The next value of a discrete integer domain: position of the current
value by exact equality (`unwrap_or(0)` when absent), advanced by `delta`
with `rem_euclid` wraparound (`Int.emod` is non-negative for a positive
modulus, exactly `rem_euclid`). -/
def stepI64 (opts : List (String × Int)) (delta : Int) (cur : Int) : Int :=
  let pos : Nat := (opts.findIdx? (fun p => p.2 == cur)).getD 0
  let next : Int := ((pos : Int) + delta).emod (opts.length : Int)
  (opts.getD next.toNat ("", 0)).2

/-- The next value of a discrete float domain: position lookup by the
|candidate - current| < 0.001 tolerance, otherwise as `stepI64`. -/
def stepF64 (opts : List (String × Dec)) (delta : Int) (cur : Dec) : Dec :=
  let pos : Nat := (opts.findIdx? (fun p => ((p.2.sub cur).abs).lt ⟨1, 3⟩)).getD 0
  let next : Int := ((pos : Int) + delta).emod (opts.length : Int)
  (opts.getD next.toNat ("", ⟨0, 0⟩)).2

/-- `App::cycle` (main.rs lines 417-441) for one setting descriptor:
select branch by kind, read the current value, step it, write it back;
the toggle branch flips unconditionally, ignoring the direction. -/
def cycleSettings (s : GraphicsSettings) (sd : SettingDef) (delta : Int) :
    GraphicsSettings :=
  match sd.kind with
  | .selectI64 opts => setI64 s sd.field (stepI64 opts delta (getI64 s sd.field))
  | .selectF64 opts => setF64 s sd.field (stepF64 opts delta (getF64 s sd.field))
  | .toggle => setBool s sd.field (!(getBool s sd.field))

/-- `App::cycle` as invoked through the cursor: the descriptor at the
cursor index in `setting_defs` (the cursor is always in range in the
app; an out-of-range index is modelled as a no-op). -/
def appCycle (s : GraphicsSettings) (cursor : Nat) (delta : Int) :
    GraphicsSettings :=
  match settingDefs[cursor]? with
  | some sd => cycleSettings s sd delta
  | none => s

/-- A whole session of cycle commands. -/
def appCycleSeq (s : GraphicsSettings) (cmds : List (Nat × Int)) :
    GraphicsSettings :=
  cmds.foldl (fun t c => appCycle t c.1 c.2) s

/-- Iterated forward cycling of one descriptor. -/
def cycleN (sd : SettingDef) (k : Nat) (s : GraphicsSettings) :
    GraphicsSettings :=
  (fun t => cycleSettings t sd 1)^[k] s

/-- The current value of a field lies in its declared domain. -/
def inDomain (s : GraphicsSettings) (sd : SettingDef) : Prop :=
  match sd.kind with
  | .selectI64 opts => getI64 s sd.field ∈ opts.map Prod.snd
  | .selectF64 opts => getF64 s sd.field ∈ opts.map Prod.snd
  | .toggle => True

/-!  Helper lemmas. -/

lemma obind_none_bb {α β : Type} (f : α → Option β) :
    ((none : Option α) >>= f) = none := rfl

lemma obind_none_m {α β : Type} (f : α → Option β) :
    Option.bind none f = none := rfl

lemma obind_const_none {α β : Type} (x : Option α) :
    Option.bind x (fun _ => (none : Option β)) = none := by
  cases x <;> rfl

lemma getField_eq_none (fields : List (String × Json)) (name : String)
    (h : name ∉ fields.map Prod.fst) : getField fields name = none := by
  have hf : fields.filter (fun p => p.1 == name) = [] := by
    induction fields with
    | nil => rfl
    | cons p t ih =>
      simp only [List.map_cons, List.mem_cons] at h
      push_neg at h
      rw [List.filter_cons]
      have : (p.1 == name) = false := by
        simpa [beq_eq_false_iff_ne] using (Ne.symm h.1)
      simp only [this, cond_false]
      exact ih h.2
  unfold getField
  rw [hf]

lemma deserializeGS_eq_none (fields : List (String × Json)) (name : String)
    (hmem : name ∈ gsFieldNames) (habs : name ∉ fields.map Prod.fst) :
    deserializeGS fields = none := by
  have hg : getField fields name = none := getField_eq_none fields name habs
  simp only [gsFieldNames, List.mem_cons, List.not_mem_nil, or_false] at hmem
  rcases hmem with rfl | rfl | rfl | rfl | rfl | rfl | rfl | rfl | rfl | rfl |
    rfl | rfl | rfl | rfl | rfl | rfl | rfl
  all_goals first
    | (have h1 : deserGS1 fields = none := by
        simp only [deserGS1, hg, obind_none_bb, obind_none_m, obind_const_none]
       simp only [deserializeGS, h1, obind_none_m])
    | (have h2 : deserGS2 fields = none := by
        simp only [deserGS2, hg, obind_none_bb, obind_none_m, obind_const_none]
       simp only [deserializeGS, h2, obind_none_m, obind_const_none])
    | (have h3 : deserGS3 fields = none := by
        simp only [deserGS3, hg, obind_none_bb, obind_none_m, obind_const_none]
       simp only [deserializeGS, h3, obind_none_m, obind_const_none])

/-!  Claim theorems. -/

/-- The spec-table fields for a stored record that uses the spec's
`DLSSQuality` name (all other names as the code accepts them, all values
the defaults). -/
def dlssSpecFields : List (String × Json) :=
  [("FPS", .int 60), ("EnableVSync", .bool true), ("RenderScale", .float ⟨1, 0⟩),
   ("ResolutionQuality", .int 3), ("ShadowQuality", .int 3),
   ("LightQuality", .int 3), ("CharacterQuality", .int 3),
   ("EnvDetailQuality", .int 3), ("ReflectionQuality", .int 3),
   ("SFXQuality", .int 3), ("BloomQuality", .int 3), ("AAMode", .int 1),
   ("EnableMetalFXSU", .bool false), ("EnableHalfResTransparent", .bool false),
   ("EnableSelfShadow", .int 1), ("DLSSQuality", .int 0),
   ("ParticleTrailSmoothness", .int 3)]

/-- The same stored record but with the code's `DlssQuality` spelling. -/
def dlssCodeFields : List (String × Json) :=
  [("FPS", .int 60), ("EnableVSync", .bool true), ("RenderScale", .float ⟨1, 0⟩),
   ("ResolutionQuality", .int 3), ("ShadowQuality", .int 3),
   ("LightQuality", .int 3), ("CharacterQuality", .int 3),
   ("EnvDetailQuality", .int 3), ("ReflectionQuality", .int 3),
   ("SFXQuality", .int 3), ("BloomQuality", .int 3), ("AAMode", .int 1),
   ("EnableMetalFXSU", .bool false), ("EnableHalfResTransparent", .bool false),
   ("EnableSelfShadow", .int 1), ("DlssQuality", .int 0),
   ("ParticleTrailSmoothness", .int 3)]

/-- C1: the claim (and the spec's §6 table) requires the upscaling-quality
field to travel under the external name `DLSSQuality`; the code's
`rename_all = "PascalCase"` with no explicit rename for `dlss_quality`
makes save emit `DlssQuality` instead, and load accepts only
`DlssQuality`: a record using the spec's `DLSSQuality` fails to
deserialize, while the `DlssQuality` spelling succeeds.  All sixteen
other external names do match the spec table. -/
theorem c1_dlss_external_name_mismatch :
    dlssQualityName = "DlssQuality" ∧
    (serializeFields GraphicsSettings.default).map Prod.fst =
      ["FPS", "EnableVSync", "RenderScale", "ResolutionQuality",
       "ShadowQuality", "LightQuality", "CharacterQuality",
       "EnvDetailQuality", "ReflectionQuality", "SFXQuality", "BloomQuality",
       "AAMode", "EnableMetalFXSU", "EnableHalfResTransparent",
       "EnableSelfShadow", "DlssQuality", "ParticleTrailSmoothness"] ∧
    "DLSSQuality" ∉ (serializeFields GraphicsSettings.default).map Prod.fst ∧
    deserializeGS dlssSpecFields = none ∧
    deserializeGS dlssCodeFields = some GraphicsSettings.default :=
  ⟨by decide, by decide, by decide, by decide, by decide⟩

/-- C2: when the stored blob's text parses to a JSON object that omits
any required field, load returns the full default record with
existed = false; nothing from the partial input is applied. -/
theorem c2_missing_field_loads_defaults (bs : List Nat)
    (fs : List (String × Json)) (name : String)
    (h1 : jsonFromStr (decodeBlob bs) = some (Json.obj fs))
    (h2 : name ∈ gsFieldNames) (h3 : name ∉ fs.map Prod.fst) :
    readSettings (.value bs) = (GraphicsSettings.default, false) := by
  have hd : deserializeGS fs = none := deserializeGS_eq_none fs name h2 h3
  have hf : fromStrGS (decodeBlob bs) = none := by
    unfold fromStrGS
    rw [h1]
    simpa [gsFromJson] using hd
  simp only [readSettings, hf]

/-- The spec's example blob: the UTF-8 text of a record containing only
`FPS: 120`, followed by one NUL byte. -/
def c2Blob : List Nat := strToUTF8 "\x7b\"FPS\":120\x7d" ++ [0]

theorem c2_missing_field_loads_defaults_witness :
    readSettings (.value c2Blob) = (GraphicsSettings.default, false) ∧
    GraphicsSettings.default.fps = 60 :=
  ⟨c2_missing_field_loads_defaults c2Blob [("FPS", Json.int 120)] "EnableVSync"
      (by rfl) (by decide) (by decide),
   by decide⟩

/-- C5: load is total (the model function returns a plain pair, as the
Rust function does): a missing store path or missing value name yields
(defaults, false), any parse failure yields (defaults, false), and every
result is either exactly that or a successfully parsed record with
existed = true. -/
theorem c5_load_never_raises :
    readSettings .noKey = (GraphicsSettings.default, false) ∧
    readSettings .noValue = (GraphicsSettings.default, false) ∧
    (∀ bs, fromStrGS (decodeBlob bs) = none →
      readSettings (.value bs) = (GraphicsSettings.default, false)) ∧
    (∀ st, readSettings st = (GraphicsSettings.default, false) ∨
      ∃ s, readSettings st = (s, true)) := by
  refine ⟨rfl, rfl, ?_, ?_⟩
  · intro bs h
    simp only [readSettings, h]
  · intro st
    cases st with
    | noKey => left; rfl
    | noValue => left; rfl
    | value bs =>
      cases h : fromStrGS (decodeBlob bs) with
      | some s =>
        right
        exact ⟨s, by simp only [readSettings, h]⟩
      | none =>
        left
        simp only [readSettings, h]

theorem c5_load_never_raises_witness :
    fromStrGS (decodeBlob [123, 0]) = none ∧
    readSettings (.value [123, 0]) = (GraphicsSettings.default, false) :=
  ⟨rfl, c5_load_never_raises.2.2.1 [123, 0] rfl⟩

lemma bytesOfChars_append (l1 l2 : List Char) :
    bytesOfChars (l1 ++ l2) = bytesOfChars l1 ++ bytesOfChars l2 := by
  induction l1 with
  | nil => rfl
  | cons c t ih => simp [bytesOfChars, ih]

/-- C3: write serializes the record, appends exactly one NUL terminator
byte, and stores those bytes; a failure of store-path creation or of the
value write is returned to the caller as an error carrying the underlying
cause. -/
theorem c3_write_nul_and_error_surfacing (s : GraphicsSettings) :
    (∀ e se, writeSettings (some e) se s = .error e) ∧
    (∀ e, writeSettings none (some e) s = .error e) ∧
    writeSettings none none s = .ok (strToUTF8 (serializeGS s) ++ [0]) := by
  refine ⟨fun e se => rfl, fun e => rfl, ?_⟩
  show Except.ok (strToUTF8 (serializeGS s ++ "\x00")) = _
  unfold strToUTF8
  rw [show (serializeGS s ++ "\x00").data = (serializeGS s).data ++ "\x00".data from rfl]
  rw [bytesOfChars_append]
  rfl

theorem c3_write_nul_and_error_surfacing_witness :
    writeSettings (some "denied") none GraphicsSettings.default =
      .error "denied" ∧
    writeSettings none none GraphicsSettings.default =
      .ok (strToUTF8 (serializeGS GraphicsSettings.default) ++ [0]) :=
  ⟨(c3_write_nul_and_error_surfacing GraphicsSettings.default).1 "denied" none,
   (c3_write_nul_and_error_surfacing GraphicsSettings.default).2.2⟩

lemma iterate_comm {α β : Type} (f : α → α) (g : α → β) (st : β → β)
    (h : ∀ t, g (f t) = st (g t)) :
    ∀ (k : Nat) (s : α), g (f^[k] s) = st^[k] (g s) := by
  intro k
  induction k with
  | zero => intro s; rfl
  | succ n ih =>
    intro s
    rw [Function.iterate_succ_apply, Function.iterate_succ_apply, ih (f s), h s]

lemma all_mem_eq {α : Type} [DecidableEq α] (f : α → α) (vals : List α)
    (hall : vals.all (fun v => decide (f v = v)) = true) (v : α)
    (hv : v ∈ vals) : f v = v :=
  of_decide_eq_true (List.all_eq_true.mp hall v hv)

/-- Cycle closure for one discrete-integer descriptor, from the
per-field accessor laws and the (decided) value-level closure. -/
lemma closure_core (fld : Field) (opts : List (String × Int))
    (hio : ∀ t v, getI64 (setI64 t fld v) fld = v)
    (hall : (opts.map Prod.snd).all
      (fun v => decide ((fun x => stepI64 opts 1 x)^[opts.length] v = v)) = true)
    (s : GraphicsSettings) (hv : getI64 s fld ∈ opts.map Prod.snd) :
    getI64 (cycleN ⟨fld, .selectI64 opts⟩ opts.length s) fld = getI64 s fld := by
  have hstep : ∀ t, getI64 (cycleSettings t ⟨fld, .selectI64 opts⟩ 1) fld
      = stepI64 opts 1 (getI64 t fld) := fun t => hio t _
  have h1 := iterate_comm (fun t => cycleSettings t ⟨fld, .selectI64 opts⟩ 1)
    (fun t => getI64 t fld) (fun v => stepI64 opts 1 v) hstep opts.length s
  have h2 : (fun x => stepI64 opts 1 x)^[opts.length] (getI64 s fld)
      = getI64 s fld := all_mem_eq _ _ hall _ hv
  unfold cycleN
  exact Eq.trans h1 h2

/-- Cycle-inverse for one discrete-integer descriptor. -/
lemma inverse_core_i64 (fld : Field) (opts : List (String × Int))
    (hio : ∀ t v, getI64 (setI64 t fld v) fld = v)
    (hss : ∀ t u v, setI64 (setI64 t fld u) fld v = setI64 t fld v)
    (hid : ∀ t, setI64 t fld (getI64 t fld) = t)
    (hall : (opts.map Prod.snd).all
      (fun v => decide (stepI64 opts (-1) (stepI64 opts 1 v) = v)) = true)
    (s : GraphicsSettings) (hv : getI64 s fld ∈ opts.map Prod.snd) :
    cycleSettings (cycleSettings s ⟨fld, .selectI64 opts⟩ 1)
      ⟨fld, .selectI64 opts⟩ (-1) = s := by
  have e : ∀ t d, cycleSettings t ⟨fld, .selectI64 opts⟩ d
      = setI64 t fld (stepI64 opts d (getI64 t fld)) := fun t d => rfl
  rw [e, e, hio, hss]
  have hval : stepI64 opts (-1) (stepI64 opts 1 (getI64 s fld))
      = getI64 s fld := all_mem_eq _ _ hall _ hv
  rw [hval]
  exact hid s

/-- Cycle-inverse for one discrete-float descriptor. -/
lemma inverse_core_f64 (fld : Field) (opts : List (String × Dec))
    (hio : ∀ t v, getF64 (setF64 t fld v) fld = v)
    (hss : ∀ t u v, setF64 (setF64 t fld u) fld v = setF64 t fld v)
    (hid : ∀ t, setF64 t fld (getF64 t fld) = t)
    (hall : (opts.map Prod.snd).all
      (fun v => decide (stepF64 opts (-1) (stepF64 opts 1 v) = v)) = true)
    (s : GraphicsSettings) (hv : getF64 s fld ∈ opts.map Prod.snd) :
    cycleSettings (cycleSettings s ⟨fld, .selectF64 opts⟩ 1)
      ⟨fld, .selectF64 opts⟩ (-1) = s := by
  have e : ∀ t d, cycleSettings t ⟨fld, .selectF64 opts⟩ d
      = setF64 t fld (stepF64 opts d (getF64 t fld)) := fun t d => rfl
  rw [e, e, hio, hss]
  have hval : stepF64 opts (-1) (stepF64 opts 1 (getF64 s fld))
      = getF64 s fld := all_mem_eq _ _ hall _ hv
  rw [hval]
  exact hid s

/-- C4 (as stated, refuted): from an out-of-domain starting value the
position lookup falls back to 0, so `domainSize` forward cycles land on
the domain value at position 0, not back on the starting value: with
`FPS = 0` (not in [30, 60, 120]), three forward cycles of the FPS field
(domain size 3) end at 30, not 0. -/
theorem c4_closure_counterexample :
    settingDefs.getD 0 ⟨.vSync, .toggle⟩ =
      ⟨.fps, .selectI64 [("30", 30), ("60", 60), ("120", 120)]⟩ ∧
    ({ GraphicsSettings.default with fps := 0 } : GraphicsSettings).fps = 0 ∧
    (cycleN (settingDefs.getD 0 ⟨.vSync, .toggle⟩) 3
      { GraphicsSettings.default with fps := 0 }).fps = 30 := by
  refine ⟨by decide, by decide, by decide⟩

/-- C4 (amended): for every discrete-integer field, cycling forward
`domainSize` times from a starting value that lies in the field's domain
returns the field to its original value. -/
theorem c4_cycle_closure (sd : SettingDef) (hsd : sd ∈ settingDefs)
    (opts : List (String × Int)) (hk : sd.kind = SettingKind.selectI64 opts)
    (s : GraphicsSettings) (hv : getI64 s sd.field ∈ opts.map Prod.snd) :
    getI64 (cycleN sd opts.length s) sd.field = getI64 s sd.field := by
  simp only [settingDefs, List.mem_cons, List.not_mem_nil, or_false] at hsd
  rcases hsd with rfl | rfl | rfl | rfl | rfl | rfl | rfl | rfl | rfl | rfl |
    rfl | rfl | rfl | rfl | rfl
  case _ =>
    have hk2 : SettingKind.selectI64 [("30", 30), ("60", 60), ("120", 120)]
        = SettingKind.selectI64 opts := hk
    injection hk2 with h
    subst h
    exact closure_core .fps [("30", 30), ("60", 60), ("120", 120)]
      (fun t v => rfl) (by decide) s hv
  case _ => simp at hk
  case _ => simp at hk
  case _ =>
    have hk2 : SettingKind.selectI64 qualityOpts
        = SettingKind.selectI64 opts := hk
    injection hk2 with h
    subst h
    exact closure_core .resolutionQuality qualityOpts (fun t v => rfl)
      (by decide) s hv
  case _ =>
    have hk2 : SettingKind.selectI64 qualityOpts
        = SettingKind.selectI64 opts := hk
    injection hk2 with h
    subst h
    exact closure_core .shadowQuality qualityOpts (fun t v => rfl)
      (by decide) s hv
  case _ =>
    have hk2 : SettingKind.selectI64 qualityOpts
        = SettingKind.selectI64 opts := hk
    injection hk2 with h
    subst h
    exact closure_core .lightQuality qualityOpts (fun t v => rfl)
      (by decide) s hv
  case _ =>
    have hk2 : SettingKind.selectI64 qualityOpts
        = SettingKind.selectI64 opts := hk
    injection hk2 with h
    subst h
    exact closure_core .characterQuality qualityOpts (fun t v => rfl)
      (by decide) s hv
  case _ =>
    have hk2 : SettingKind.selectI64 qualityOpts
        = SettingKind.selectI64 opts := hk
    injection hk2 with h
    subst h
    exact closure_core .envDetailQuality qualityOpts (fun t v => rfl)
      (by decide) s hv
  case _ =>
    have hk2 : SettingKind.selectI64 qualityOpts
        = SettingKind.selectI64 opts := hk
    injection hk2 with h
    subst h
    exact closure_core .reflectionQuality qualityOpts (fun t v => rfl)
      (by decide) s hv
  case _ =>
    have hk2 : SettingKind.selectI64 qualityOpts
        = SettingKind.selectI64 opts := hk
    injection hk2 with h
    subst h
    exact closure_core .sfxQuality qualityOpts (fun t v => rfl)
      (by decide) s hv
  case _ =>
    have hk2 : SettingKind.selectI64 qualityOpts
        = SettingKind.selectI64 opts := hk
    injection hk2 with h
    subst h
    exact closure_core .bloomQuality qualityOpts (fun t v => rfl)
      (by decide) s hv
  case _ =>
    have hk2 : SettingKind.selectI64 [("Off", 0), ("On", 1)]
        = SettingKind.selectI64 opts := hk
    injection hk2 with h
    subst h
    exact closure_core .aaMode [("Off", 0), ("On", 1)] (fun t v => rfl)
      (by decide) s hv
  case _ =>
    have hk2 : SettingKind.selectI64 [("Off", 0), ("On", 1)]
        = SettingKind.selectI64 opts := hk
    injection hk2 with h
    subst h
    exact closure_core .selfShadow [("Off", 0), ("On", 1)] (fun t v => rfl)
      (by decide) s hv
  case _ =>
    have hk2 : SettingKind.selectI64 dlssOpts
        = SettingKind.selectI64 opts := hk
    injection hk2 with h
    subst h
    exact closure_core .dlssQuality dlssOpts (fun t v => rfl)
      (by decide) s hv
  case _ =>
    have hk2 : SettingKind.selectI64 qualityOpts
        = SettingKind.selectI64 opts := hk
    injection hk2 with h
    subst h
    exact closure_core .particleTrail qualityOpts (fun t v => rfl)
      (by decide) s hv

theorem c4_cycle_closure_witness :
    (⟨.fps, .selectI64 [("30", 30), ("60", 60), ("120", 120)]⟩ : SettingDef)
      ∈ settingDefs ∧
    getI64 (cycleN ⟨.fps, .selectI64 [("30", 30), ("60", 60), ("120", 120)]⟩ 3
        GraphicsSettings.default) Field.fps
      = getI64 GraphicsSettings.default Field.fps :=
  ⟨by decide,
   c4_cycle_closure ⟨.fps, .selectI64 [("30", 30), ("60", 60), ("120", 120)]⟩
     (by decide) [("30", 30), ("60", 60), ("120", 120)] rfl
     GraphicsSettings.default (by decide)⟩

/-- C6: for every registry field whose current value lies in its declared
domain, a forward cycle followed by a backward cycle restores the whole
record. -/
theorem c6_cycle_inverse (sd : SettingDef) (hsd : sd ∈ settingDefs)
    (s : GraphicsSettings) (hv : inDomain s sd) :
    cycleSettings (cycleSettings s sd 1) sd (-1) = s := by
  simp only [settingDefs, List.mem_cons, List.not_mem_nil, or_false] at hsd
  rcases hsd with rfl | rfl | rfl | rfl | rfl | rfl | rfl | rfl | rfl | rfl |
    rfl | rfl | rfl | rfl | rfl
  case _ =>
    exact inverse_core_i64 .fps [("30", 30), ("60", 60), ("120", 120)]
      (fun t v => rfl) (fun t u v => rfl) (fun t => rfl) (by decide) s hv
  case _ =>
    have e : cycleSettings (cycleSettings s ⟨.vSync, .toggle⟩ 1)
        ⟨.vSync, .toggle⟩ (-1)
        = { s with enable_vsync := !(!s.enable_vsync) } := rfl
    rw [e, Bool.not_not]
  case _ =>
    exact inverse_core_f64 .renderScale renderScaleOpts
      (fun t v => rfl) (fun t u v => rfl) (fun t => rfl) (by decide) s hv
  case _ =>
    exact inverse_core_i64 .resolutionQuality qualityOpts
      (fun t v => rfl) (fun t u v => rfl) (fun t => rfl) (by decide) s hv
  case _ =>
    exact inverse_core_i64 .shadowQuality qualityOpts
      (fun t v => rfl) (fun t u v => rfl) (fun t => rfl) (by decide) s hv
  case _ =>
    exact inverse_core_i64 .lightQuality qualityOpts
      (fun t v => rfl) (fun t u v => rfl) (fun t => rfl) (by decide) s hv
  case _ =>
    exact inverse_core_i64 .characterQuality qualityOpts
      (fun t v => rfl) (fun t u v => rfl) (fun t => rfl) (by decide) s hv
  case _ =>
    exact inverse_core_i64 .envDetailQuality qualityOpts
      (fun t v => rfl) (fun t u v => rfl) (fun t => rfl) (by decide) s hv
  case _ =>
    exact inverse_core_i64 .reflectionQuality qualityOpts
      (fun t v => rfl) (fun t u v => rfl) (fun t => rfl) (by decide) s hv
  case _ =>
    exact inverse_core_i64 .sfxQuality qualityOpts
      (fun t v => rfl) (fun t u v => rfl) (fun t => rfl) (by decide) s hv
  case _ =>
    exact inverse_core_i64 .bloomQuality qualityOpts
      (fun t v => rfl) (fun t u v => rfl) (fun t => rfl) (by decide) s hv
  case _ =>
    exact inverse_core_i64 .aaMode [("Off", 0), ("On", 1)]
      (fun t v => rfl) (fun t u v => rfl) (fun t => rfl) (by decide) s hv
  case _ =>
    exact inverse_core_i64 .selfShadow [("Off", 0), ("On", 1)]
      (fun t v => rfl) (fun t u v => rfl) (fun t => rfl) (by decide) s hv
  case _ =>
    exact inverse_core_i64 .dlssQuality dlssOpts
      (fun t v => rfl) (fun t u v => rfl) (fun t => rfl) (by decide) s hv
  case _ =>
    exact inverse_core_i64 .particleTrail qualityOpts
      (fun t v => rfl) (fun t u v => rfl) (fun t => rfl) (by decide) s hv

theorem c6_cycle_inverse_witness :
    inDomain GraphicsSettings.default
      ⟨.fps, .selectI64 [("30", 30), ("60", 60), ("120", 120)]⟩ ∧
    cycleSettings (cycleSettings GraphicsSettings.default
        ⟨.fps, .selectI64 [("30", 30), ("60", 60), ("120", 120)]⟩ 1)
      ⟨.fps, .selectI64 [("30", 30), ("60", 60), ("120", 120)]⟩ (-1)
      = GraphicsSettings.default := by
  have hv : inDomain GraphicsSettings.default
      ⟨.fps, .selectI64 [("30", 30), ("60", 60), ("120", 120)]⟩ :=
    (by decide : (60 : Int) ∈ ([("30", 30), ("60", 60), ("120", 120)].map
      Prod.snd : List Int))
  exact ⟨hv, c6_cycle_inverse _ (by decide) GraphicsSettings.default hv⟩

/-- C8: for a boolean (toggle) field, a cycle flips the value whatever
the direction argument is, and two consecutive cycles in any combination
of directions restore the record (hence the field). -/
theorem c8_toggle_involution (sd : SettingDef) (hsd : sd ∈ settingDefs)
    (hk : sd.kind = SettingKind.toggle) (s : GraphicsSettings) (d1 d2 : Int) :
    getBool (cycleSettings s sd d1) sd.field = !(getBool s sd.field) ∧
    cycleSettings (cycleSettings s sd d1) sd d2 = s := by
  simp only [settingDefs, List.mem_cons, List.not_mem_nil, or_false] at hsd
  rcases hsd with rfl | rfl | rfl | rfl | rfl | rfl | rfl | rfl | rfl | rfl |
    rfl | rfl | rfl | rfl | rfl
  case _ => simp at hk
  case _ =>
    refine ⟨rfl, ?_⟩
    have e : cycleSettings (cycleSettings s ⟨.vSync, .toggle⟩ d1)
        ⟨.vSync, .toggle⟩ d2
        = { s with enable_vsync := !(!s.enable_vsync) } := rfl
    rw [e, Bool.not_not]
  all_goals simp at hk

theorem c8_toggle_involution_witness :
    getBool (cycleSettings GraphicsSettings.default ⟨.vSync, .toggle⟩ 1)
        Field.vSync
      = !(getBool GraphicsSettings.default Field.vSync) ∧
    cycleSettings (cycleSettings GraphicsSettings.default
        ⟨.vSync, .toggle⟩ 1) ⟨.vSync, .toggle⟩ (-1)
      = GraphicsSettings.default :=
  c8_toggle_involution ⟨.vSync, .toggle⟩ (by decide) rfl
    GraphicsSettings.default 1 (-1)

/-- C9: the spec's worked examples, and the non-negative wraparound.
From the default record (`FPS = 60`, position 1 of [30, 60, 120]) a
forward cycle yields 120 and another wraps to 30; from
`RenderScale = 1.0` a backward cycle yields 0.8 (the decimal 8/10),
found through the |candidate - current| < 0.001 tolerance match. -/
theorem c9_cycle_examples :
    (settingDefs.getD 0 ⟨.vSync, .toggle⟩).field = Field.fps ∧
    GraphicsSettings.default.fps = 60 ∧
    (cycleSettings GraphicsSettings.default
      (settingDefs.getD 0 ⟨.vSync, .toggle⟩) 1).fps = 120 ∧
    (cycleSettings (cycleSettings GraphicsSettings.default
        (settingDefs.getD 0 ⟨.vSync, .toggle⟩) 1)
      (settingDefs.getD 0 ⟨.vSync, .toggle⟩) 1).fps = 30 ∧
    (settingDefs.getD 2 ⟨.vSync, .toggle⟩).field = Field.renderScale ∧
    GraphicsSettings.default.render_scale = ⟨1, 0⟩ ∧
    (cycleSettings GraphicsSettings.default
      (settingDefs.getD 2 ⟨.vSync, .toggle⟩) (-1)).render_scale = ⟨8, 1⟩ ∧
    fmtFloat ⟨8, 1⟩ = "0.8" ∧
    stepI64 [("30", 30), ("60", 60), ("120", 120)] (-1) 30 = 120 := by
  refine ⟨by decide, by decide, by decide, by decide, by decide, by decide,
    by decide, by decide, by decide⟩

lemma deserializeGS_congr (A B : List (String × Json))
    (h : ∀ n ∈ gsFieldNames, getField A n = getField B n) :
    deserializeGS A = deserializeGS B := by
  have e1 := h fpsName (by simp [gsFieldNames])
  have e2 := h enableVSyncName (by simp [gsFieldNames])
  have e3 := h renderScaleName (by simp [gsFieldNames])
  have e4 := h resolutionQualityName (by simp [gsFieldNames])
  have e5 := h shadowQualityName (by simp [gsFieldNames])
  have e6 := h lightQualityName (by simp [gsFieldNames])
  have e7 := h characterQualityName (by simp [gsFieldNames])
  have e8 := h envDetailQualityName (by simp [gsFieldNames])
  have e9 := h reflectionQualityName (by simp [gsFieldNames])
  have e10 := h sfxQualityName (by simp [gsFieldNames])
  have e11 := h bloomQualityName (by simp [gsFieldNames])
  have e12 := h aaModeName (by simp [gsFieldNames])
  have e13 := h enableMetalFxsuName (by simp [gsFieldNames])
  have e14 := h enableHalfResTransparentName (by simp [gsFieldNames])
  have e15 := h enableSelfShadowName (by simp [gsFieldNames])
  have e16 := h dlssQualityName (by simp [gsFieldNames])
  have e17 := h particleTrailSmoothnessName (by simp [gsFieldNames])
  have s1 : deserGS1 A = deserGS1 B := by
    simp only [deserGS1, e1, e2, e3, e4, e5, e6]
  have s2 : deserGS2 A = deserGS2 B := by
    simp only [deserGS2, e7, e8, e9, e10, e11, e12]
  have s3 : deserGS3 A = deserGS3 B := by
    simp only [deserGS3, e13, e14, e15, e16, e17]
  simp only [deserializeGS, s1, s2, s3]

/-- C7: an entry whose name is not one of the record's external field
names is ignored by deserialization wherever it occurs (the result is
the same as without it), and a stored blob whose text deserializes
successfully loads as that record with existed = true. -/
theorem c7_unknown_fields_ignored (name : String) (v : Json)
    (pre post : List (String × Json)) (h : name ∉ gsFieldNames) :
    deserializeGS (pre ++ (name, v) :: post) = deserializeGS (pre ++ post) ∧
    (∀ bs s, fromStrGS (decodeBlob bs) = some s →
      readSettings (.value bs) = (s, true)) := by
  constructor
  · apply deserializeGS_congr
    intro n hn
    have hne : (name == n) = false := by
      refine beq_eq_false_iff_ne.mpr ?_
      intro e
      exact h (by rw [e]; exact hn)
    simp [getField, List.filter_append, List.filter_cons, hne]
  · intro bs s hs
    simp only [readSettings, hs]

/-- A fully populated field table carrying the default values under the
names the code accepts. -/
def c7BaseFields : List (String × Json) :=
  [("FPS", .int 60), ("EnableVSync", .bool true), ("RenderScale", .float ⟨1, 0⟩),
   ("ResolutionQuality", .int 3), ("ShadowQuality", .int 3),
   ("LightQuality", .int 3), ("CharacterQuality", .int 3),
   ("EnvDetailQuality", .int 3), ("ReflectionQuality", .int 3),
   ("SFXQuality", .int 3), ("BloomQuality", .int 3), ("AAMode", .int 1),
   ("EnableMetalFXSU", .bool false), ("EnableHalfResTransparent", .bool false),
   ("EnableSelfShadow", .int 1), ("DlssQuality", .int 0),
   ("ParticleTrailSmoothness", .int 3)]

theorem c7_unknown_fields_ignored_witness :
    ("Foo" ∉ gsFieldNames) ∧
    deserializeGS ([] ++ ("Foo", Json.int 7) :: c7BaseFields)
      = deserializeGS ([] ++ c7BaseFields) ∧
    deserializeGS c7BaseFields = some GraphicsSettings.default :=
  ⟨by decide,
   (c7_unknown_fields_ignored "Foo" (Json.int 7) [] c7BaseFields (by decide)).1,
   by decide⟩

lemma setI64_preserves (s : GraphicsSettings) (f : Field) (v : Int) :
    (setI64 s f v).enable_half_res_transparent
      = s.enable_half_res_transparent ∧
    (setI64 s f v).enable_metal_fxsu = s.enable_metal_fxsu := by
  cases f <;> exact ⟨rfl, rfl⟩

lemma setF64_preserves (s : GraphicsSettings) (f : Field) (v : Dec) :
    (setF64 s f v).enable_half_res_transparent
      = s.enable_half_res_transparent ∧
    (setF64 s f v).enable_metal_fxsu = s.enable_metal_fxsu := by
  cases f <;> exact ⟨rfl, rfl⟩

lemma setBool_preserves (s : GraphicsSettings) (f : Field) (v : Bool) :
    (setBool s f v).enable_half_res_transparent
      = s.enable_half_res_transparent ∧
    (setBool s f v).enable_metal_fxsu = s.enable_metal_fxsu := by
  cases f <;> exact ⟨rfl, rfl⟩

lemma cycleSettings_preserves (s : GraphicsSettings) (sd : SettingDef)
    (d : Int) :
    (cycleSettings s sd d).enable_half_res_transparent
      = s.enable_half_res_transparent ∧
    (cycleSettings s sd d).enable_metal_fxsu = s.enable_metal_fxsu := by
  obtain ⟨f, k⟩ := sd
  cases k with
  | selectI64 opts => exact setI64_preserves s f _
  | selectF64 opts => exact setF64_preserves s f _
  | toggle => exact setBool_preserves s f _

lemma appCycle_preserves (s : GraphicsSettings) (i : Nat) (d : Int) :
    (appCycle s i d).enable_half_res_transparent
      = s.enable_half_res_transparent ∧
    (appCycle s i d).enable_metal_fxsu = s.enable_metal_fxsu := by
  cases h : settingDefs[i]? with
  | none => simp [appCycle, h]
  | some sd => simp only [appCycle, h]; exact cycleSettings_preserves s sd d

lemma appCycleSeq_preserves (cmds : List (Nat × Int)) (s : GraphicsSettings) :
    (appCycleSeq s cmds).enable_half_res_transparent
      = s.enable_half_res_transparent ∧
    (appCycleSeq s cmds).enable_metal_fxsu = s.enable_metal_fxsu := by
  induction cmds generalizing s with
  | nil => exact ⟨rfl, rfl⟩
  | cons c cs ih =>
    have h1 := appCycle_preserves s c.1 c.2
    have h2 := ih (appCycle s c.1 c.2)
    simp only [appCycleSeq, List.foldl_cons] at h2 ⊢
    exact ⟨h2.1.trans h1.1, h2.2.trans h1.2⟩

/-- C10: no editable descriptor touches the half-res-transparency field
or the upscaler flag (they have no `Field` tag), so an arbitrary session
of cycle commands over any cursor positions leaves both loaded values
intact, and save serializes those untouched values under their external
names. -/
theorem c10_uneditable_fields_preserved (cmds : List (Nat × Int))
    (s : GraphicsSettings) :
    (appCycleSeq s cmds).enable_half_res_transparent
      = s.enable_half_res_transparent ∧
    (appCycleSeq s cmds).enable_metal_fxsu = s.enable_metal_fxsu ∧
    enableHalfResTransparentName = "EnableHalfResTransparent" ∧
    enableMetalFxsuName = "EnableMetalFXSU" ∧
    (enableHalfResTransparentName, Json.bool s.enable_half_res_transparent)
      ∈ serializeFields (appCycleSeq s cmds) ∧
    (enableMetalFxsuName, Json.bool s.enable_metal_fxsu)
      ∈ serializeFields (appCycleSeq s cmds) := by
  obtain ⟨h1, h2⟩ := appCycleSeq_preserves cmds s
  refine ⟨h1, h2, by decide, by decide, ?_, ?_⟩
  · simp [serializeFields, h1]
  · simp [serializeFields, h2]

end HsrSettings
